import Mathlib

/-
  Verification development for the mongo-tui application state machine
  (crates/tui_app/src/components/mongo_viewer).

  The embedding translates the MongoViewer component: its shared context
  (context.rs, plus the pagination field of defs.rs used throughout mod.rs),
  the popup state machine, the pane registry dispatch, and the action
  handler MongoViewer::update, into pure Lean functions.  Background
  spawns are modelled by returning the request that would be issued
  (Spawn) and by a function from the two remote-store responses to the
  Action the spawned task sends back.  External library functions
  (serde_json parsing of the filter/sort/projection buffers,
  serde_json::to_string_pretty) are taken as function parameters, since
  the component only observes their Option-shaped results.

  Machine integers: current_page/offsets are usize and total_count is u64,
  modelled as Nat; the one semantically significant cast, the
  `as u64` conversion of the possibly negative i64 skip product in the
  RefreshDocuments spawn, is modelled exactly as a two's-complement
  reduction modulo 2^64.
-/

namespace MongoTui

/-- Opaque stand-in for a parsed bson document (mongo_core::bson::Document)
as produced by serde_json::from_str followed by bson::to_document. -/
abbrev BsonDoc := String

/-- A fetched document: an ordered field-name/value list; values are opaque
(only field enumeration and the _id lookup convention are observed). -/
abbrev MDoc := List (String × String)

/-- config::Connection. -/
structure Connection where
  name : String
  uri : String
deriving DecidableEq

/-- mongo_core::CollectionInfo. -/
structure CollectionInfo where
  name : String
deriving DecidableEq

/-- mongo_core::DatabaseInfo. -/
structure DatabaseInfo where
  name : String
  collections : List CollectionInfo
deriving DecidableEq

/-- defs.rs QueryField. -/
inductive QueryField
  | filter
  | sort
  | limit
  | projection
deriving DecidableEq

/-- defs.rs ViewMode. -/
inductive ViewMode
  | table
  | json
deriving DecidableEq

/-- defs.rs PaginationState (current_page: usize, total_count: Option of u64). -/
structure PaginationState where
  current_page : Nat
  total_count : Option Nat
deriving DecidableEq

/-- defs.rs PopupState.  TextArea buffers are modelled as their joined
text; ListState/TableState as the selected index. -/
inductive PopupState
  | none
  | connectionManager (name : String) (uri : String) (is_editing_uri : Bool)
  | queryBuilder (active_field : QueryField)
  | jsonViewer (json : String) (title : String) (offset : Nat)
  | fieldSelector (sel : Option Nat) (all_fields : List String) (visible_fields : List String)
  | help (sel : Option Nat)
  | error (message : String)
deriving DecidableEq

/-- The Action vocabulary, with the variants and payload shapes used by
MongoViewer (mod.rs); render-loop plumbing variants not touched by the
component are omitted. -/
inductive Action
  | tick
  | render
  | quit
  | error (msg : String)
  | connect (uri : String)
  | refreshDatabases
  | refreshDocuments
  | nextPage
  | previousPage
  | toggleViewMode
  | openJsonPopup (json : String) (title : String)
  | openConnectionManager
  | openQueryBuilder
  | openFieldSelector (all_fields : List String) (visible_fields : List String)
  | updateVisibleFields (fields : List String)
  | saveConnection (name : String) (uri : String)
  | databasesLoaded (dbs : List DatabaseInfo)
  | documentsLoaded (docs : List MDoc) (count : Nat)
deriving DecidableEq

/-- crossterm KeyCode, restricted to the variants the component matches on;
`other` stands for every remaining variant (all handlers have a catch-all). -/
inductive KeyCode
  | esc
  | enter
  | tab
  | backTab
  | up
  | down
  | left
  | right
  | char (c : Char)
  | other
deriving DecidableEq

/-- MongoContext (context.rs): the cross-pane shared state.  action_tx and
mongo_core are omitted (the channel is registered once at startup and the
store client is opaque); the clipboard holds its current text when
available.  The pagination field is the PaginationState of defs.rs,
accessed throughout mod.rs as context.pagination. -/
structure MongoContext where
  connections : List Connection
  databases : List DatabaseInfo
  documents : List MDoc
  selected_connection : Option Nat
  selected_db_index : Option Nat
  selected_coll_index : Option Nat
  query_input : String
  projection_input : String
  sort_input : String
  limit_input : String
  input_validation_errors : List (QueryField × String)
  pagination : PaginationState
  clipboard : Option String
deriving DecidableEq

/-- pane_id.rs / registration order in MongoViewer::default. -/
inductive PaneId
  | connections
  | databases
  | query
  | documents
deriving DecidableEq

/-- parts/databases.rs TreeItem. -/
inductive TreeItem
  | database (db_idx : Nat)
  | collection (db_idx : Nat) (coll_idx : Nat)
deriving DecidableEq

/-- parts/connections.rs ConnectionsPane local state (list_state mirror). -/
structure ConnectionsPaneState where
  list_sel : Option Nat
deriving DecidableEq

/-- parts/databases.rs DatabasesPane local state.  expanded_dbs is a
HashSet of names, modelled as a list used only through membership. -/
structure DatabasesPaneState where
  expanded_dbs : List String
  tree_items : List TreeItem
  selected_tree_index : Option Nat
  list_sel : Option Nat
deriving DecidableEq

/-- parts/documents.rs DocumentsPane local state. -/
structure DocumentsPaneState where
  view_mode : ViewMode
  table_sel : Option Nat
  list_sel : Option Nat
  selected_column_index : Nat
  visible_fields : List String
  all_fields : List String
deriving DecidableEq

/-- MongoViewer (mod.rs): context, popup, registry active pointer,
loading flags, and the per-pane local states held by the registry. -/
structure MongoViewer where
  context : MongoContext
  popup_state : PopupState
  active_pane : PaneId
  is_loading : Bool
  loading_frame : Nat
  connectionsPane : ConnectionsPaneState
  databasesPane : DatabasesPaneState
  documentsPane : DocumentsPaneState
deriving DecidableEq

/-- The find request composed by the RefreshDocuments spawn:
find_documents(db, coll, filter, projection, sort, Some(limit), Some(skip));
the count request reuses db, coll and filter. -/
structure FindRequest where
  db : String
  coll : String
  filter : Option BsonDoc
  projection : Option BsonDoc
  sort : Option BsonDoc
  limit : Int
  skip : Nat
deriving DecidableEq

/-- The background tasks MongoViewer::update spawns (tokio::spawn),
identified by the request data cloned into the task. -/
inductive Spawn
  | connect (uri : String)
  | listDatabases
  | findAndCount (req : FindRequest)
deriving DecidableEq

/-- Value of a non-empty all-digit run, as in Rust integer FromStr. -/
def digitsVal? (cs : List Char) : Option Nat :=
  if cs.isEmpty then Option.none
  else cs.foldlM (fun acc c => if c.isDigit then some (acc * 10 + (c.toNat - 48)) else Option.none) 0

/-- Rust str::parse for i64: optional sign, digits, range check. -/
def parseI64 (s : String) : Option Int :=
  match s.data with
  | '+' :: rest => (digitsVal? rest).bind (fun n => if n ≤ 2 ^ 63 - 1 then some (n : Int) else Option.none)
  | '-' :: rest => (digitsVal? rest).bind (fun n => if n ≤ 2 ^ 63 then some (-(n : Int)) else Option.none)
  | cs => (digitsVal? cs).bind (fun n => if n ≤ 2 ^ 63 - 1 then some (n : Int) else Option.none)

/-- Rust str::parse for usize (64-bit): optional plus sign, digits, range check. -/
def parseUsize (s : String) : Option Nat :=
  match s.data with
  | '+' :: rest => (digitsVal? rest).bind (fun n => if n ≤ 2 ^ 64 - 1 then some n else Option.none)
  | '-' :: _ => Option.none
  | cs => (digitsVal? cs).bind (fun n => if n ≤ 2 ^ 64 - 1 then some n else Option.none)

/-- The `as u64` cast of an in-range i64 value: two's-complement
reduction modulo 2^64. -/
def i64AsU64 (x : Int) : Nat := (x % (2 ^ 64 : Int)).toNat

/-- str::trim().is_empty(): the string is empty or all whitespace. -/
def isBlank (s : String) : Bool := s.data.all (fun c => c.isWhitespace)

/-- The request computed inside the RefreshDocuments spawn (mod.rs):
limit = limit_str.parse i64 with fallback 10, skip = (page as i64 * limit)
as u64, and each of filter/sort/projection parsed only when its buffer is
not blank, with parse failures silently mapped to None.
parseBson stands for serde_json::from_str composed with bson::to_document. -/
def mkFindRequest (parseBson : String → Option BsonDoc)
    (db_name coll_name filter_str sort_str proj_str limit_str : String)
    (current_page : Nat) : FindRequest :=
  let limit : Int := (parseI64 limit_str).getD 10
  let skip : Nat := i64AsU64 ((current_page : Int) * limit)
  let filter : Option BsonDoc :=
    if !(isBlank filter_str) then parseBson filter_str else Option.none
  let sort : Option BsonDoc :=
    if !(isBlank sort_str) then parseBson sort_str else Option.none
  let proj : Option BsonDoc :=
    if !(isBlank proj_str) then parseBson proj_str else Option.none
  { db := db_name, coll := coll_name, filter := filter, projection := proj,
    sort := sort, limit := limit, skip := skip }

/-- The Action the spawned RefreshDocuments task sends back, as a function
of the two remote-store responses: find_documents first, and only on its
success count_documents (the count oracle value is simply unused when the
find fails, matching that the count request is never issued then). -/
def refreshTaskResult (findRes : Except String (List MDoc)) (countRes : Except String Nat) : Action :=
  match findRes with
  | .ok docs =>
      match countRes with
      | .ok count => .documentsLoaded docs count
      | .error e => .error e
  | .error e => .error e

/-- tui_textarea input, modelled for printable characters (append); the
remaining editing keys are left as the identity, which no claim observes. -/
def taInput (buf : String) (k : KeyCode) : String :=
  match k with
  | .char c => buf.push c
  | _ => buf

/-- ViewMode toggle (DocumentsPane::toggle_view_mode). -/
def toggleVM : ViewMode → ViewMode
  | .table => .json
  | .json => .table

/-- Field-selector toggle (mod.rs FieldSelector Enter/Space): remove every
occurrence when present, append otherwise. -/
def toggleField (visible_fields : List String) (field : String) : List String :=
  if visible_fields.contains field then visible_fields.filter (fun f => f != field)
  else visible_fields ++ [field]

/-- MongoViewer::handle_popup_events: total function from
(popup, context, key) to (popup, context, emitted action). -/
def handlePopupEvents (p : PopupState) (ctx : MongoContext) (k : KeyCode) :
    PopupState × MongoContext × Option Action :=
  match p with
  | .error _ =>
      match k with
      | .esc | .enter => (.none, ctx, some .render)
      | _ => (p, ctx, Option.none)
  | .connectionManager name uri is_editing_uri =>
      match k with
      | .esc => (.none, ctx, some .render)
      | .tab => (.connectionManager name uri (!is_editing_uri), ctx, some .render)
      | .enter =>
          if name ≠ "" ∧ uri ≠ "" then (.none, ctx, some (.saveConnection name uri))
          else (p, ctx, Option.none)
      | _ =>
          if is_editing_uri then
            (.connectionManager name (taInput uri k) is_editing_uri, ctx, some .render)
          else
            (.connectionManager (taInput name k) uri is_editing_uri, ctx, some .render)
  | .jsonViewer json title offset =>
      match k with
      | .esc => (.none, ctx, some .render)
      | .down | .char 'j' => (.jsonViewer json title (offset + 1), ctx, some .render)
      | .up | .char 'k' => (.jsonViewer json title (offset - 1), ctx, some .render)
      | _ => (p, ctx, Option.none)
  | .help sel =>
      match k with
      | .esc | .char '?' => (.none, ctx, some .render)
      | .down | .char 'j' =>
          (.help (some (match sel with | some i => i + 1 | Option.none => 0)), ctx, some .render)
      | .up | .char 'k' =>
          (.help (some (match sel with
            | some i => if i = 0 then 0 else i - 1
            | Option.none => 0)), ctx, some .render)
      | _ => (p, ctx, Option.none)
  | .queryBuilder active_field =>
      match k with
      | .esc => (.none, { ctx with input_validation_errors := [] }, some .render)
      | .tab =>
          let nf : QueryField := match active_field with
            | .filter => .sort
            | .sort => .projection
            | .projection => .limit
            | .limit => .filter
          (.queryBuilder nf, ctx, some .render)
      | .enter =>
          -- source comment: "Simplify validation: just trigger refresh"
          (.none, { ctx with pagination := { ctx.pagination with current_page := 0 } },
           some .refreshDocuments)
      | _ =>
          let ctx' := match active_field with
            | .filter => { ctx with query_input := taInput ctx.query_input k }
            | .sort => { ctx with sort_input := taInput ctx.sort_input k }
            | .projection => { ctx with projection_input := taInput ctx.projection_input k }
            | .limit => { ctx with limit_input := taInput ctx.limit_input k }
          (p, ctx', some .render)
  | .fieldSelector sel all_fields visible_fields =>
      match k with
      | .esc => (.none, ctx, some .render)
      | .down | .char 'j' =>
          let i := match sel with
            | some i => if i ≥ all_fields.length - 1 then all_fields.length - 1 else i + 1
            | Option.none => 0
          (.fieldSelector (some i) all_fields visible_fields, ctx, some .render)
      | .up | .char 'k' =>
          let i := match sel with
            | some i => if i = 0 then 0 else i - 1
            | Option.none => 0
          (.fieldSelector (some i) all_fields visible_fields, ctx, some .render)
      | .enter | .char ' ' =>
          (match sel with
           | some i =>
               match all_fields.get? i with
               | some field =>
                   let new_visible := toggleField visible_fields field
                   (.fieldSelector sel all_fields new_visible, ctx,
                    some (.updateVisibleFields new_visible))
               | Option.none => (.fieldSelector sel all_fields visible_fields, ctx, some .render)
           | Option.none => (.fieldSelector sel all_fields visible_fields, ctx, some .render))
      | _ => (.fieldSelector sel all_fields visible_fields, ctx, some .render)
  | .none => (p, ctx, Option.none)

/-- DatabasesPane::rebuild_tree_items. -/
def rebuildTreeItems (expanded : List String) (dbs : List DatabaseInfo) : List TreeItem :=
  (dbs.enum.map (fun e =>
    TreeItem.database e.1 ::
      (if expanded.contains e.2.name then
        (List.range e.2.collections.length).map (fun ci => TreeItem.collection e.1 ci)
      else []))).flatten

/-- DatabasesPane::handle_key_event. -/
def DatabasesPaneState.handleKey (p : DatabasesPaneState) (ctx : MongoContext) (k : KeyCode) :
    DatabasesPaneState × MongoContext × Option Action :=
  match k with
  | .char 'j' | .down =>
      (match p.selected_tree_index with
       | some idx =>
           if idx + 1 < p.tree_items.length then
             ({ p with selected_tree_index := some (idx + 1), list_sel := some (idx + 1) },
              ctx, some .render)
           else (p, ctx, Option.none)
       | Option.none =>
           if p.tree_items.isEmpty then (p, ctx, Option.none)
           else ({ p with selected_tree_index := some 0, list_sel := some 0 }, ctx, some .render))
  | .char 'k' | .up =>
      (match p.selected_tree_index with
       | some idx =>
           if idx > 0 then
             ({ p with selected_tree_index := some (idx - 1), list_sel := some (idx - 1) },
              ctx, some .render)
           else (p, ctx, Option.none)
       | Option.none => (p, ctx, Option.none))
  | .enter | .char ' ' =>
      (match p.selected_tree_index with
       | some idx =>
           match p.tree_items.get? idx with
           | some (.database db_idx) =>
               (match ctx.databases.get? db_idx with
                | some db =>
                    let expanded :=
                      if p.expanded_dbs.contains db.name then
                        p.expanded_dbs.filter (fun n => n != db.name)
                      else db.name :: p.expanded_dbs
                    let items := rebuildTreeItems expanded ctx.databases
                    ({ p with expanded_dbs := expanded, tree_items := items }, ctx, some .render)
                | Option.none => (p, ctx, Option.none))
           | some (.collection db_idx coll_idx) =>
               (p, { ctx with selected_db_index := some db_idx,
                              selected_coll_index := some coll_idx },
                some .refreshDocuments)
           | Option.none => (p, ctx, Option.none)
       | Option.none => (p, ctx, Option.none))
  | _ => (p, ctx, Option.none)

/-- DatabasesPane::update (receive broadcast). -/
def DatabasesPaneState.update (p : DatabasesPaneState) (a : Action) (ctx : MongoContext) :
    DatabasesPaneState :=
  match a with
  | .databasesLoaded _ =>
      let items := rebuildTreeItems p.expanded_dbs ctx.databases
      if items.isEmpty then
        { p with tree_items := items, selected_tree_index := Option.none, list_sel := Option.none }
      else
        { p with tree_items := items, selected_tree_index := some 0, list_sel := some 0 }
  | _ => p

/-- ConnectionsPane::handle_key_event. -/
def ConnectionsPaneState.handleKey (p : ConnectionsPaneState) (ctx : MongoContext) (k : KeyCode) :
    ConnectionsPaneState × MongoContext × Option Action :=
  match k with
  | .char 'j' | .down =>
      (match ctx.selected_connection with
       | some idx =>
           if idx + 1 < ctx.connections.length then
             ({ p with list_sel := some (idx + 1) },
              { ctx with selected_connection := some (idx + 1) }, some .render)
           else (p, ctx, Option.none)
       | Option.none =>
           if ctx.connections.isEmpty then (p, ctx, Option.none)
           else ({ p with list_sel := some 0 },
                 { ctx with selected_connection := some 0 }, some .render))
  | .char 'k' | .up =>
      (match ctx.selected_connection with
       | some idx =>
           if idx > 0 then
             ({ p with list_sel := some (idx - 1) },
              { ctx with selected_connection := some (idx - 1) }, some .render)
           else (p, ctx, Option.none)
       | Option.none => (p, ctx, Option.none))
  | .enter =>
      (match ctx.selected_connection with
       | some idx =>
           match ctx.connections.get? idx with
           | some conn => (p, ctx, some (.connect conn.uri))
           | Option.none => (p, ctx, Option.none)
       | Option.none => (p, ctx, Option.none))
  | _ => (p, ctx, Option.none)

/-- QueryPane::handle_key_event. -/
def queryPaneHandleKey (k : KeyCode) : Option Action :=
  if k = .enter then some .openQueryBuilder else Option.none

/-- The _id display convention: doc.get_object_id("_id") to_string, else
doc.get("_id") to_string, else the default; with opaque string values the
two success branches coincide with the field lookup. -/
def docIdVal (d : MDoc) (dflt : String) : String := (d.lookup "_id").getD dflt

/-- Insertion of a string into an ascending sorted list (models Vec::sort). -/
def insertAsc (x : String) : List String → List String
  | [] => [x]
  | y :: ys => if x ≤ y then x :: y :: ys else y :: insertAsc x ys

/-- Ascending sort of a string list. -/
def sortAsc (l : List String) : List String := l.foldr insertAsc []

/-- DocumentsPane::handle_key_event.  prettyDoc models
serde_json::to_string_pretty (None on failure). -/
def DocumentsPaneState.handleKey (prettyDoc : MDoc → Option String)
    (p : DocumentsPaneState) (ctx : MongoContext) (k : KeyCode) :
    DocumentsPaneState × MongoContext × Option Action :=
  match k with
  | .char 'v' => ({ p with view_mode := toggleVM p.view_mode }, ctx, some .render)
  | .char 'f' => (p, ctx, some (.openFieldSelector p.all_fields p.visible_fields))
  | .down | .char 'j' =>
      let len := ctx.documents.length
      if len > 0 then
        let i := match p.table_sel with
          | some i => if i ≥ len - 1 then len - 1 else i + 1
          | Option.none => 0
        ({ p with table_sel := some i, list_sel := some i }, ctx, some .render)
      else (p, ctx, Option.none)
  | .up | .char 'k' =>
      let len := ctx.documents.length
      if len > 0 then
        let i := match p.table_sel with
          | some i => if i = 0 then 0 else i - 1
          | Option.none => 0
        ({ p with table_sel := some i, list_sel := some i }, ctx, some .render)
      else (p, ctx, Option.none)
  | .left | .char 'h' =>
      if p.view_mode = .table then
        if p.selected_column_index > 0 then
          ({ p with selected_column_index := p.selected_column_index - 1 }, ctx, some .render)
        else (p, ctx, Option.none)
      else (p, ctx, Option.none)
  | .right | .char 'l' =>
      if p.view_mode = .table then
        if p.selected_column_index < p.visible_fields.length - 1 then
          ({ p with selected_column_index := p.selected_column_index + 1 }, ctx, some .render)
        else (p, ctx, Option.none)
      else (p, ctx, Option.none)
  | .char 'y' =>
      (match p.table_sel with
       | some idx =>
           match ctx.documents.get? idx with
           | some doc =>
               (p, { ctx with clipboard := ctx.clipboard.map (fun _ => docIdVal doc "") },
                Option.none)
           | Option.none => (p, ctx, Option.none)
       | Option.none => (p, ctx, Option.none))
  | .char 'Y' =>
      (match p.table_sel with
       | some idx =>
           match ctx.documents.get? idx with
           | some doc =>
               (match prettyDoc doc with
                | some json =>
                    (p, { ctx with clipboard := ctx.clipboard.map (fun _ => json) }, Option.none)
                | Option.none => (p, ctx, Option.none))
           | Option.none => (p, ctx, Option.none)
       | Option.none => (p, ctx, Option.none))
  | .char 'p' =>
      if p.view_mode = .table then
        (match p.table_sel with
         | some idx =>
             match ctx.documents.get? idx with
             | some doc =>
                 (match p.visible_fields.get? p.selected_column_index with
                  | some field =>
                      (p, { ctx with
                              clipboard := ctx.clipboard.map
                                (fun _ => ((doc.lookup field).getD "")) }, Option.none)
                  | Option.none => (p, ctx, Option.none))
             | Option.none => (p, ctx, Option.none)
         | Option.none => (p, ctx, Option.none))
      else (p, ctx, Option.none)
  | .enter =>
      (match p.table_sel with
       | some idx =>
           match ctx.documents.get? idx with
           | some doc =>
               (match prettyDoc doc with
                | some json =>
                    let id_str := docIdVal doc "?"
                    let connPart : List String :=
                      match ctx.selected_connection with
                      | some i =>
                          (match ctx.connections.get? i with
                           | some c => [c.name]
                           | Option.none => [])
                      | Option.none => []
                    let dbPart : List String :=
                      match ctx.selected_db_index with
                      | some i =>
                          (match ctx.databases.get? i with
                           | some db =>
                               db.name ::
                                 (match ctx.selected_coll_index with
                                  | some ci =>
                                      (match db.collections.get? ci with
                                       | some coll => [coll.name]
                                       | Option.none => [])
                                  | Option.none => [])
                           | Option.none => [])
                      | Option.none => []
                    let title := String.intercalate " / " (connPart ++ dbPart ++ [id_str])
                    (p, ctx, some (.openJsonPopup json title))
                | Option.none => (p, ctx, Option.none))
           | Option.none => (p, ctx, Option.none)
       | Option.none => (p, ctx, Option.none))
  | _ => (p, ctx, Option.none)

/-- DocumentsPane::update (receive broadcast). -/
def DocumentsPaneState.update (p : DocumentsPaneState) (a : Action) (ctx : MongoContext) :
    DocumentsPaneState :=
  match a with
  | .documentsLoaded _ _ =>
      -- visible fields reset, then all_fields from the keys of the first 20
      -- documents (HashSet collected and sorted), then pad visible to 5
      let allFields := sortAsc (((ctx.documents.take 20).flatMap (fun d => d.map Prod.fst)).dedup)
      let visible := allFields.foldl
        (fun vis f => if f ≠ "_id" ∧ vis.length < 5 then vis ++ [f] else vis) ["_id"]
      { p with visible_fields := visible, all_fields := allFields,
               table_sel := if ctx.documents.isEmpty then Option.none else some 0,
               list_sel := if ctx.documents.isEmpty then Option.none else some 0 }
  | .toggleViewMode => { p with view_mode := toggleVM p.view_mode }
  | .updateVisibleFields fields => { p with visible_fields := fields, selected_column_index := 0 }
  | _ => p

/-- PaneRegistry::cycle_next over the registration order
(Connections, Databases, Query, Documents). -/
def cycleNext : PaneId → PaneId
  | .connections => .databases
  | .databases => .query
  | .query => .documents
  | .documents => .connections

/-- PaneRegistry::update_all: broadcast an Action to every pane
(Connections and Query keep the trait's no-op default; the handlers read
but never mutate the context, so the HashMap iteration order is
irrelevant). -/
def MongoViewer.updateAllPanes (s : MongoViewer) (a : Action) : MongoViewer :=
  { s with databasesPane := s.databasesPane.update a s.context,
           documentsPane := s.documentsPane.update a s.context }

/-- The NextPage bound `(total as usize + limit - 1) / limit`, with the
addition and the subtraction performed in wrapping usize arithmetic
(adding 2^64 - 1 is subtracting 1 modulo 2^64): for total_count near
u64::MAX the sum overflows usize, the release profile wraps (a debug
build panics there), and the wrapped bound is what the division sees.
For limit = 0 the source panics on the division; no claim reaches it. -/
def maxPagesWrap (total limit : Nat) : Nat :=
  ((total + limit + (2 ^ 64 - 1)) % 2 ^ 64) / limit

/-- The nested bounds-checked selection of the RefreshDocuments handler:
both indices set, database index in range, collection index in range. -/
def selectedCollTarget (ctx : MongoContext) : Option (DatabaseInfo × CollectionInfo) :=
  match ctx.selected_db_index, ctx.selected_coll_index with
  | some db_idx, some coll_idx =>
      (match ctx.databases.get? db_idx with
       | some db =>
           (match db.collections.get? coll_idx with
            | some coll => some (db, coll)
            | Option.none => Option.none)
       | Option.none => Option.none)
  | _, _ => Option.none

/-- MongoViewer::update.  Returns the new state, the follow-up Action
(Ok(Some(..)) returns), and the background task spawned, if any.  Arms
that return early in the source skip the update_all broadcast, exactly as
there. -/
def MongoViewer.update (parseBson : String → Option BsonDoc) (s : MongoViewer) (a : Action) :
    MongoViewer × Option Action × Option Spawn :=
  match a with
  | .tick =>
      let s' := if s.is_loading then { s with loading_frame := (s.loading_frame + 1) % 2 ^ 64 }
                else s
      (s'.updateAllPanes a, Option.none, Option.none)
  | .saveConnection name uri =>
      let conns := s.context.connections ++ [{ name := name, uri := uri }]
      let ctx := { s.context with
        connections := conns,
        selected_connection := some (conns.length - 1) }
      (({ s with context := ctx }).updateAllPanes a, Option.none, Option.none)
  | .connect uri =>
      (({ s with is_loading := true }).updateAllPanes a, Option.none, some (.connect uri))
  | .refreshDatabases =>
      (({ s with is_loading := true }).updateAllPanes a, Option.none, some .listDatabases)
  | .databasesLoaded dbs =>
      let ctx := { s.context with databases := dbs }
      (({ s with is_loading := false, context := ctx,
                 active_pane := .databases }).updateAllPanes a,
       Option.none, Option.none)
  | .refreshDocuments =>
      (match selectedCollTarget s.context with
       | some (db, coll) =>
           let req := mkFindRequest parseBson db.name coll.name
             s.context.query_input s.context.sort_input s.context.projection_input
             s.context.limit_input s.context.pagination.current_page
           (({ s with is_loading := true }).updateAllPanes a, Option.none,
            some (.findAndCount req))
       | Option.none => (s.updateAllPanes a, Option.none, Option.none))
  | .documentsLoaded docs count =>
      let ctx := { s.context with
        documents := docs,
        pagination := { s.context.pagination with total_count := some count } }
      (({ s with is_loading := false, context := ctx,
                 active_pane := .documents }).updateAllPanes a,
       Option.none, Option.none)
  | .nextPage =>
      (match s.context.pagination.total_count with
       | some total =>
           let limit := (parseUsize s.context.limit_input).getD 10
           let current := s.context.pagination.current_page
           let max_pages := maxPagesWrap total limit
           if current + 1 < max_pages then
             let ctx := { s.context with
               pagination := { s.context.pagination with current_page := current + 1 } }
             ({ s with context := ctx }, some .refreshDocuments, Option.none)
           else (s.updateAllPanes a, Option.none, Option.none)
       | Option.none => (s.updateAllPanes a, Option.none, Option.none))
  | .previousPage =>
      if s.context.pagination.current_page > 0 then
        let ctx := { s.context with
          pagination := { s.context.pagination with
            current_page := s.context.pagination.current_page - 1 } }
        ({ s with context := ctx }, some .refreshDocuments, Option.none)
      else (s.updateAllPanes a, Option.none, Option.none)
  | .error msg =>
      (({ s with is_loading := false, popup_state := .error msg }).updateAllPanes a,
       Option.none, Option.none)
  | _ => (s.updateAllPanes a, Option.none, Option.none)

/-- The popup branch of MongoViewer::handle_key_events. -/
def MongoViewer.popupStep (s : MongoViewer) (k : KeyCode) : MongoViewer × Option Action :=
  let r := handlePopupEvents s.popup_state s.context k
  ({ s with popup_state := r.1, context := r.2.1 }, r.2.2)

/-- Section 3 of handle_key_events: actions returned by the active pane
that open popups are intercepted; everything else passes through. -/
def interceptOpen (s : MongoViewer) (a : Option Action) : MongoViewer × Option Action :=
  match a with
  | some .openConnectionManager =>
      ({ s with popup_state := .connectionManager "" "" false }, some .render)
  | some .openQueryBuilder =>
      ({ s with popup_state := .queryBuilder .filter }, some .render)
  | some (.openJsonPopup json title) =>
      ({ s with popup_state := .jsonViewer json title 0 }, some .render)
  | some (.openFieldSelector all_fields visible_fields) =>
      ({ s with popup_state := .fieldSelector (some 0) all_fields visible_fields }, some .render)
  | some a => (s, some a)
  | Option.none => (s, Option.none)

/-- PaneRegistry::handle_key_event routed to the active pane, followed by
the open-action interception. -/
def MongoViewer.paneDispatch (prettyDoc : MDoc → Option String)
    (s : MongoViewer) (k : KeyCode) : MongoViewer × Option Action :=
  let r : MongoViewer × Option Action :=
    match s.active_pane with
    | .connections =>
        let t := s.connectionsPane.handleKey s.context k
        ({ s with connectionsPane := t.1, context := t.2.1 }, t.2.2)
    | .databases =>
        let t := s.databasesPane.handleKey s.context k
        ({ s with databasesPane := t.1, context := t.2.1 }, t.2.2)
    | .query => (s, queryPaneHandleKey k)
    | .documents =>
        let t := DocumentsPaneState.handleKey prettyDoc s.documentsPane s.context k
        ({ s with documentsPane := t.1, context := t.2.1 }, t.2.2)
  interceptOpen r.1 r.2

/-- Section 2 of handle_key_events: the global shortcuts, falling through
to the active pane. -/
def MongoViewer.handleMainKey (prettyDoc : MDoc → Option String)
    (s : MongoViewer) (k : KeyCode) : MongoViewer × Option Action :=
  match k with
  | .char 'q' => (s, some .quit)
  | .char '?' => ({ s with popup_state := .help (some 0) }, some .render)
  | .char 'c' =>
      if s.active_pane = .connections then (s, some .openConnectionManager)
      else s.paneDispatch prettyDoc k
  | .tab => ({ s with active_pane := cycleNext s.active_pane }, some .render)
  | .char '1' => ({ s with active_pane := .connections }, some .render)
  | .char '2' => ({ s with active_pane := .databases }, some .render)
  | .char '3' => ({ s with active_pane := .query }, some .render)
  | .char '4' => ({ s with active_pane := .documents }, some .render)
  | _ => s.paneDispatch prettyDoc k

/-- MongoViewer::handle_key_events: any active popup consumes the key
before the global shortcuts and the pane routing. -/
def MongoViewer.handleKeyEvents (prettyDoc : MDoc → Option String)
    (s : MongoViewer) (k : KeyCode) : MongoViewer × Option Action :=
  match s.popup_state with
  | .none => s.handleMainKey prettyDoc k
  | _ => s.popupStep k

/-- MongoContext::default (placeholders are render-only and omitted;
the clipboard handle is environment-dependent, taken as absent). -/
def MongoContext.init : MongoContext :=
  { connections := [], databases := [], documents := [],
    selected_connection := Option.none, selected_db_index := Option.none,
    selected_coll_index := Option.none,
    query_input := "", projection_input := "", sort_input := "", limit_input := "",
    input_validation_errors := [],
    pagination := { current_page := 0, total_count := Option.none },
    clipboard := Option.none }

/-- MongoViewer::default: four panes registered in order, Connections active. -/
def MongoViewer.init : MongoViewer :=
  { context := .init, popup_state := .none, active_pane := .connections,
    is_loading := false, loading_frame := 0,
    connectionsPane := { list_sel := Option.none },
    databasesPane := { expanded_dbs := [], tree_items := [],
                       selected_tree_index := Option.none, list_sel := Option.none },
    documentsPane := { view_mode := .table, table_sel := Option.none, list_sel := Option.none,
                       selected_column_index := 0, visible_fields := ["_id"], all_fields := [] } }

/-! ### Helper lemmas and sample states -/

/-- A parse oracle on which every input fails (e.g. serde_json on
non-JSON text). -/
def pdNone : String → Option BsonDoc := fun _ => Option.none

/-- A serializer oracle; its value is irrelevant to the dispatch claims. -/
def prettyD0 : MDoc → Option String := fun _ => Option.none

theorem updateAllPanes_nextPage (s : MongoViewer) : s.updateAllPanes .nextPage = s := rfl

theorem updateAllPanes_previousPage (s : MongoViewer) : s.updateAllPanes .previousPage = s := rfl

theorem updateAllPanes_refreshDocuments (s : MongoViewer) :
    s.updateAllPanes .refreshDocuments = s := rfl

/-- n < ceil(T / L), computed as (T + L - 1) / L, iff n * L < T. -/
theorem lt_ceil_div_iff (T L n : Nat) (hL : 1 ≤ L) :
    n < (T + L - 1) / L ↔ n * L < T := by
  rw [Nat.lt_iff_add_one_le, Nat.le_div_iff_mul_le (Nat.lt_of_lt_of_le Nat.zero_lt_one hL)]
  have h : (n + 1) * L = n * L + L := by ring
  omega

/-- The wrapped bound never exceeds the exact ceiling bound. -/
theorem maxPagesWrap_le (T L : Nat) (hL : 1 ≤ L) :
    maxPagesWrap T L ≤ (T + L - 1) / L := by
  unfold maxPagesWrap
  apply Nat.div_le_div_right
  have h1 : T + L + (2 ^ 64 - 1) = (T + L - 1) + 2 ^ 64 := by omega
  rw [h1, Nat.add_mod_right]
  exact Nat.mod_le _ _

/-- Without usize overflow the wrapped bound is the exact ceiling bound. -/
theorem maxPagesWrap_eq (T L : Nat) (hL : 1 ≤ L) (hnov : T + L - 1 < 2 ^ 64) :
    maxPagesWrap T L = (T + L - 1) / L := by
  unfold maxPagesWrap
  have h1 : T + L + (2 ^ 64 - 1) = (T + L - 1) + 2 ^ 64 := by omega
  rw [h1, Nat.add_mod_right, Nat.mod_eq_of_lt hnov]

/-- When `total + limit - 1` overflows usize (with total and limit both
u64/usize-representable), the wrapped bound collapses to 0. -/
theorem maxPagesWrap_overflow (T L : Nat) (hT : T < 2 ^ 64) (hL : L < 2 ^ 64)
    (hov : 2 ^ 64 ≤ T + L - 1) : maxPagesWrap T L = 0 := by
  unfold maxPagesWrap
  have h1 : T + L + (2 ^ 64 - 1) = (T + L - 1 - 2 ^ 64) + 2 ^ 64 + 2 ^ 64 := by omega
  rw [h1, Nat.add_mod_right, Nat.add_mod_right, Nat.mod_eq_of_lt (by omega)]
  exact Nat.div_eq_of_lt (by omega)

/-- A successful usize parse is in the usize range. -/
theorem parseUsize_lt (s : String) (L : Nat) (h : parseUsize s = some L) : L < 2 ^ 64 := by
  unfold parseUsize at h
  split at h
  · rcases Option.bind_eq_some.mp h with ⟨n, hn, hif⟩
    split at hif
    · rename_i hle
      cases hif
      omega
    · exact absurd hif (by simp)
  · exact absurd h (by simp)
  · rcases Option.bind_eq_some.mp h with ⟨n, hn, hif⟩
    split at hif
    · rename_i hle
      cases hif
      omega
    · exact absurd hif (by simp)

/-- The u64 cast of a nonnegative in-range i64 product is the Nat product. -/
theorem i64AsU64_nonneg_mul (p : Nat) (L : Int) (hL : 0 ≤ L)
    (hrange : (p : Int) * L < 2 ^ 63) :
    i64AsU64 ((p : Int) * L) = p * L.toNat := by
  obtain ⟨n, rfl⟩ := Int.eq_ofNat_of_zero_le hL
  unfold i64AsU64
  rw [Int.emod_eq_of_lt (by positivity) (lt_trans hrange (by norm_num))]
  rw [← Int.natCast_mul, Int.toNat_natCast, Int.toNat_natCast]

/-! ### C3 -/

/-- C3: the RefreshDocuments task emits DocumentsLoaded(documents,
total_count) exactly when both the paged find and the count succeed;
otherwise it emits Error, and processing an Error action leaves
context.documents and pagination.total_count at their prior values. -/
theorem c3_documents_loaded_requires_both_requests
    (parseBson : String → Option BsonDoc)
    (findRes : Except String (List MDoc)) (countRes : Except String Nat)
    (docs : List MDoc) (count : Nat) (s : MongoViewer) (msg : String) :
    (refreshTaskResult findRes countRes = .documentsLoaded docs count ↔
      findRes = .ok docs ∧ countRes = .ok count) ∧
    ((∃ e, refreshTaskResult findRes countRes = .error e) ∨
      ∃ d n, refreshTaskResult findRes countRes = .documentsLoaded d n) ∧
    (s.update parseBson (.error msg)).1.context.documents = s.context.documents ∧
    (s.update parseBson (.error msg)).1.context.pagination.total_count =
      s.context.pagination.total_count := by
  refine ⟨?_, ?_, rfl, rfl⟩
  · cases findRes <;> cases countRes <;> simp [refreshTaskResult]
  · cases findRes <;> cases countRes <;> simp [refreshTaskResult]

/-! ### C4 -/

/-- C4: an Error(msg) action forces the popup to Error(msg) whatever was
open, clears is_loading, changes no Context field and no pane state, and
afterwards Escape or Enter closes the popup to None (the pre-empted popup
is not restored). -/
theorem c4_error_preempts_popup_and_preserves_context
    (parseBson : String → Option BsonDoc) (prettyDoc : MDoc → Option String)
    (s : MongoViewer) (msg : String) :
    (s.update parseBson (.error msg)).1.popup_state = .error msg ∧
    (s.update parseBson (.error msg)).1.is_loading = false ∧
    (s.update parseBson (.error msg)).1.context = s.context ∧
    (s.update parseBson (.error msg)).1.active_pane = s.active_pane ∧
    (s.update parseBson (.error msg)).1.connectionsPane = s.connectionsPane ∧
    (s.update parseBson (.error msg)).1.databasesPane = s.databasesPane ∧
    (s.update parseBson (.error msg)).1.documentsPane = s.documentsPane ∧
    (s.update parseBson (.error msg)).2 = (Option.none, Option.none) ∧
    (((s.update parseBson (.error msg)).1).handleKeyEvents prettyDoc .esc).1.popup_state =
      .none ∧
    (((s.update parseBson (.error msg)).1).handleKeyEvents prettyDoc .enter).1.popup_state =
      .none :=
  ⟨rfl, rfl, rfl, rfl, rfl, rfl, rfl, rfl, rfl, rfl⟩

/-! ### C8 -/

/-- C8: the RefreshDocuments handler dereferences the selection only
through the bounds-checked nested lookups; when they fail it spawns
nothing, leaves the state unchanged and emits no action, and when they
succeed it spawns the find/count task for exactly the resolved names. -/
theorem c8_refresh_noop_on_invalid_selection
    (parseBson : String → Option BsonDoc) (s : MongoViewer) :
    (selectedCollTarget s.context = Option.none →
      s.update parseBson .refreshDocuments = (s, Option.none, Option.none)) ∧
    (∀ db coll, selectedCollTarget s.context = some (db, coll) →
      (s.update parseBson .refreshDocuments).1.is_loading = true ∧
      (s.update parseBson .refreshDocuments).2.2 =
        some (.findAndCount (mkFindRequest parseBson db.name coll.name
          s.context.query_input s.context.sort_input s.context.projection_input
          s.context.limit_input s.context.pagination.current_page))) := by
  constructor
  · intro h
    simp [MongoViewer.update, h, updateAllPanes_refreshDocuments]
  · intro db coll h
    simp [MongoViewer.update, h, MongoViewer.updateAllPanes,
      DatabasesPaneState.update, DocumentsPaneState.update]

/-- Witness for C8 at concrete states: the default state has no
selection and RefreshDocuments is a strict no-op there. -/
theorem c8_witness :
    selectedCollTarget MongoViewer.init.context = Option.none ∧
    MongoViewer.init.update pdNone .refreshDocuments =
      (MongoViewer.init, Option.none, Option.none) :=
  ⟨rfl, (c8_refresh_noop_on_invalid_selection pdNone MongoViewer.init).1 rfl⟩

/-! ### C5 -/

/-- State on page 0 of a collection whose count is u64::MAX, with limit
buffer "2": the claim's advance condition (0+1)*2 < T holds, but the
source's bound computation `total as usize + limit - 1` overflows usize
(release wraps the bound to 0; a debug build panics). -/
def viewerC5x : MongoViewer :=
  { MongoViewer.init with context := { MongoContext.init with
      limit_input := "2"
      pagination := { current_page := 0, total_count := some (2 ^ 64 - 1) } } }

/-- C5 as stated is false: at total_count = 2^64 - 1, limit "2",
current_page = 0, the claim demands an advance ((p+1)*L = 2 < T), yet
NextPage is a strict no-op because `total as usize + limit - 1` wraps
and the bound becomes 0. -/
theorem c5_overflowing_bound_rejects_next_page :
    parseUsize (viewerC5x.context.limit_input) = some 2 ∧
    viewerC5x.context.pagination.total_count = some (2 ^ 64 - 1) ∧
    (0 + 1) * 2 < 2 ^ 64 - 1 ∧
    viewerC5x.update pdNone .nextPage = (viewerC5x, Option.none, Option.none) :=
  ⟨by decide, rfl, by decide, by decide⟩

/-- C5 amended: with total_count = Some T and a limit buffer parsing to
L ≥ 1, NextPage is a strict no-op when (p+1)*L ≥ T, and advances to p+1
re-issuing RefreshDocuments when (p+1)*L < T provided T + L - 1 does not
overflow usize; when it does overflow (T, L both usize-representable)
the wrapped bound is 0 and NextPage is a no-op even below the last page
(release semantics; a debug build panics on the overflowing addition).
PreviousPage is a no-op at page 0 and otherwise steps back re-issuing
RefreshDocuments; with total_count = None, NextPage is a no-op. -/
theorem c5_pagination_bounds
    (parseBson : String → Option BsonDoc) (s : MongoViewer) (T L : Nat)
    (hparse : parseUsize s.context.limit_input = some L) (hL : 1 ≤ L) :
    (s.context.pagination.total_count = some T →
      (T ≤ (s.context.pagination.current_page + 1) * L →
        s.update parseBson .nextPage = (s, Option.none, Option.none)) ∧
      ((s.context.pagination.current_page + 1) * L < T → T + L - 1 < 2 ^ 64 →
        (s.update parseBson .nextPage).1 =
          { s with context := { s.context with pagination :=
              { s.context.pagination with
                  current_page := s.context.pagination.current_page + 1 } } } ∧
        (s.update parseBson .nextPage).2 = (some .refreshDocuments, Option.none)) ∧
      (T < 2 ^ 64 → 2 ^ 64 ≤ T + L - 1 →
        s.update parseBson .nextPage = (s, Option.none, Option.none))) ∧
    (s.context.pagination.total_count = Option.none →
      s.update parseBson .nextPage = (s, Option.none, Option.none)) ∧
    (s.context.pagination.current_page = 0 →
      s.update parseBson .previousPage = (s, Option.none, Option.none)) ∧
    (0 < s.context.pagination.current_page →
      (s.update parseBson .previousPage).1 =
        { s with context := { s.context with pagination :=
            { s.context.pagination with
                current_page := s.context.pagination.current_page - 1 } } } ∧
      (s.update parseBson .previousPage).2 = (some .refreshDocuments, Option.none)) := by
  refine ⟨fun hT => ⟨fun hge => ?_, fun hlt hnov => ?_, fun hT64 hov => ?_⟩,
    fun hT => ?_, fun h0 => ?_, fun hpos => ?_⟩
  · have hceil : ¬ (s.context.pagination.current_page + 1 < (T + L - 1) / L) := by
      rw [lt_ceil_div_iff T L _ hL]; omega
    have hnb : ¬ (s.context.pagination.current_page + 1 < maxPagesWrap T L) := fun hc =>
      hceil (lt_of_lt_of_le hc (maxPagesWrap_le T L hL))
    simp [MongoViewer.update, hT, hparse, hnb, updateAllPanes_nextPage]
  · have hb : s.context.pagination.current_page + 1 < maxPagesWrap T L := by
      rw [maxPagesWrap_eq T L hL hnov]
      exact (lt_ceil_div_iff T L _ hL).mpr hlt
    simp [MongoViewer.update, hT, hparse, hb]
  · have hnb : ¬ (s.context.pagination.current_page + 1 < maxPagesWrap T L) := by
      rw [maxPagesWrap_overflow T L hT64 (parseUsize_lt _ _ hparse) hov]
      omega
    simp [MongoViewer.update, hT, hparse, hnb, updateAllPanes_nextPage]
  · simp [MongoViewer.update, hT, updateAllPanes_nextPage]
  · simp [MongoViewer.update, h0, updateAllPanes_previousPage]
  · simp [MongoViewer.update, Nat.pos_iff_ne_zero.mp hpos, updateAllPanes_previousPage, hpos]

/-- Sample state for the C5 witness: limit buffer "5", 10 matches,
currently on page 1 (the last page). -/
def viewerC5 : MongoViewer :=
  { MongoViewer.init with context := { MongoContext.init with
      limit_input := "5"
      pagination := { current_page := 1, total_count := some 10 } } }

/-- Witness for C5: at the last page (p+1)*L = 10 ≥ T = 10 and NextPage
is a strict no-op. -/
theorem c5_witness :
    parseUsize viewerC5.context.limit_input = some 5 ∧
    viewerC5.update pdNone .nextPage = (viewerC5, Option.none, Option.none) := by
  refine ⟨by decide, ?_⟩
  exact ((c5_pagination_bounds pdNone viewerC5 10 5 (by decide) (by decide)).1 rfl).1
    (by decide)

/-! ### C6 -/

/-- C6 as stated is false: a limit buffer of "-1" parses to the integer
L = -1, and at current_page = 1 the spawned request carries
skip = (1 * -1) as u64 = 2^64 - 1, not p * L = -1. -/
theorem c6_negative_limit_wraps_skip :
    parseI64 "-1" = some (-1) ∧
    (mkFindRequest pdNone "db" "c" "" "" "" "-1" 1).limit = -1 ∧
    (mkFindRequest pdNone "db" "c" "" "" "" "-1" 1).skip = 2 ^ 64 - 1 ∧
    ((mkFindRequest pdNone "db" "c" "" "" "" "-1" 1).skip : Int) ≠ (1 : Int) * (-1) :=
  ⟨by decide, by decide, by decide, by decide⟩

/-- C6 amended: when the limit buffer parses to L with 0 ≤ L and the
i64 product p * L is in range, the spawned fetch requests exactly
limit = L and skip = p * L; for negative L the skip is the
two's-complement wrap of p * L modulo 2^64. -/
theorem c6_amended_skip_eq_page_times_limit
    (parseBson : String → Option BsonDoc)
    (db coll filter_str sort_str proj_str limit_str : String)
    (p : Nat) (L : Int)
    (hparse : parseI64 limit_str = some L) (hL : 0 ≤ L)
    (hrange : (p : Int) * L < 2 ^ 63) :
    (mkFindRequest parseBson db coll filter_str sort_str proj_str limit_str p).limit = L ∧
    (mkFindRequest parseBson db coll filter_str sort_str proj_str limit_str p).skip =
      p * L.toNat := by
  constructor
  · simp [mkFindRequest, hparse]
  · show i64AsU64 ((p : Int) * (Option.getD (parseI64 limit_str) 10)) = p * L.toNat
    rw [hparse]
    exact i64AsU64_nonneg_mul p L hL hrange

/-- Witness for the amended C6 at p = 2, limit text "5": limit 5, skip 10. -/
theorem c6_amended_witness :
    parseI64 "5" = some 5 ∧
    (mkFindRequest pdNone "db" "c" "" "" "" "5" 2).limit = 5 ∧
    (mkFindRequest pdNone "db" "c" "" "" "" "5" 2).skip = 10 := by
  have h := c6_amended_skip_eq_page_times_limit pdNone "db" "c" "" "" "" "5" 2 5
    (by decide) (by decide) (by decide)
  exact ⟨by decide, h.1, by rw [h.2]; decide⟩

/-! ### C10 -/

/-- State with malformed limit buffer "abc" on page 0 of a collection
whose count is u64::MAX: the default-10 bound computation overflows. -/
def viewerC10x : MongoViewer :=
  { MongoViewer.init with context := { MongoContext.init with
      limit_input := "abc"
      pagination := { current_page := 0, total_count := some (2 ^ 64 - 1) } } }

/-- C10 as stated is false at the edges of the machine integers: with
limit text "abc" (no integer reading) and current_page = 2^64 - 1 the
fetch carries skip = ((2^64-1) as i64 * 10) as u64 = 2^64 - 10, not
current_page * 10; and at total_count = 2^64 - 1, page 0, the claim's
limit-10 page bound admits an advance, yet NextPage is a no-op because
`total as usize + 10 - 1` wraps and the bound becomes 0. -/
theorem c10_wrap_divergences :
    parseI64 "abc" = Option.none ∧
    parseUsize "abc" = Option.none ∧
    (mkFindRequest pdNone "db" "c" "" "" "" "abc" (2 ^ 64 - 1)).limit = 10 ∧
    (mkFindRequest pdNone "db" "c" "" "" "" "abc" (2 ^ 64 - 1)).skip = 2 ^ 64 - 10 ∧
    (mkFindRequest pdNone "db" "c" "" "" "" "abc" (2 ^ 64 - 1)).skip ≠ (2 ^ 64 - 1) * 10 ∧
    (0 + 1) * 10 < 2 ^ 64 - 1 ∧
    viewerC10x.update pdNone .nextPage = (viewerC10x, Option.none, Option.none) :=
  ⟨by decide, by decide, by decide, by decide, by decide, by decide, by decide⟩

/-- C10 amended: a limit buffer with no integer reading (e.g. empty or
non-numeric) makes RefreshDocuments fetch with limit 10, with
skip = p * 10 whenever p * 10 is in i64 range (beyond that the skip is
the two's-complement wrap of the cast chain); NextPage bounds the page
count with limit 10 in wrapping usize arithmetic, a no-op when
(p+1)*10 ≥ T and advancing when (p+1)*10 < T provided T + 9 does not
overflow usize; and the malformed limit produces neither a validation
error nor an Error action (a task whose store calls succeed still emits
DocumentsLoaded). -/
theorem c10_malformed_limit_defaults_to_ten
    (parseBson : String → Option BsonDoc)
    (db coll filter_str sort_str proj_str : String)
    (p T : Nat) (s : MongoViewer)
    (h64 : parseI64 s.context.limit_input = Option.none)
    (hus : parseUsize s.context.limit_input = Option.none) :
    (mkFindRequest parseBson db coll filter_str sort_str proj_str
        s.context.limit_input p).limit = 10 ∧
    ((p : Int) * 10 < 2 ^ 63 →
      (mkFindRequest parseBson db coll filter_str sort_str proj_str
        s.context.limit_input p).skip = p * 10) ∧
    (s.context.pagination.total_count = some T →
      (T ≤ (s.context.pagination.current_page + 1) * 10 →
        s.update parseBson .nextPage = (s, Option.none, Option.none)) ∧
      ((s.context.pagination.current_page + 1) * 10 < T → T + 9 < 2 ^ 64 →
        (s.update parseBson .nextPage).1.context.pagination.current_page =
          s.context.pagination.current_page + 1 ∧
        (s.update parseBson .nextPage).2.1 = some .refreshDocuments)) ∧
    (∀ d n, refreshTaskResult (.ok d) (.ok n) = .documentsLoaded d n) ∧
    (s.update parseBson .refreshDocuments).1.context.input_validation_errors =
      s.context.input_validation_errors := by
  refine ⟨?_, fun hrange => ?_, fun hT => ⟨fun hge => ?_, fun hlt hnov => ?_⟩,
    fun d n => rfl, ?_⟩
  · simp [mkFindRequest, h64]
  · show i64AsU64 ((p : Int) * (Option.getD (parseI64 s.context.limit_input) 10)) = p * 10
    rw [h64]
    have h := i64AsU64_nonneg_mul p 10 (by norm_num) hrange
    simpa using h
  · have hceil : ¬ (s.context.pagination.current_page + 1 < (T + 10 - 1) / 10) := by
      rw [lt_ceil_div_iff T 10 _ (by norm_num)]; omega
    have hnb : ¬ (s.context.pagination.current_page + 1 < maxPagesWrap T 10) := fun hc =>
      hceil (lt_of_lt_of_le hc (maxPagesWrap_le T 10 (by norm_num)))
    simp [MongoViewer.update, hT, hus, hnb, updateAllPanes_nextPage]
  · have hb : s.context.pagination.current_page + 1 < maxPagesWrap T 10 := by
      rw [maxPagesWrap_eq T 10 (by norm_num) (by omega)]
      rw [lt_ceil_div_iff T 10 _ (by norm_num)]
      omega
    simp [MongoViewer.update, hT, hus, hb]
  · cases h : selectedCollTarget s.context with
    | none => simp [MongoViewer.update, h, updateAllPanes_refreshDocuments]
    | some target =>
        simp [MongoViewer.update, h, MongoViewer.updateAllPanes,
          DatabasesPaneState.update, DocumentsPaneState.update]

/-- Sample state for the C10 witness: malformed limit buffer "abc",
25 matches, currently on page 2. -/
def viewerC10 : MongoViewer :=
  { MongoViewer.init with context := { MongoContext.init with
      limit_input := "abc"
      pagination := { current_page := 2, total_count := some 25 } } }

/-- Witness for C10: with limit text "abc" the fetch uses limit 10 and
skip = 3 * 10 = 30, and NextPage at page 2 of 25 matches is a no-op
because the bound is computed with limit 10. -/
theorem c10_witness :
    parseI64 "abc" = Option.none ∧
    (mkFindRequest pdNone "db" "c" "" "" "" (viewerC10.context.limit_input) 3).limit = 10 ∧
    (mkFindRequest pdNone "db" "c" "" "" "" (viewerC10.context.limit_input) 3).skip = 30 ∧
    viewerC10.update pdNone .nextPage = (viewerC10, Option.none, Option.none) := by
  have h := c10_malformed_limit_defaults_to_ten pdNone "db" "c" "" "" "" 3 25 viewerC10
    (by decide) (by decide)
  exact ⟨by decide, h.1, by rw [h.2.1 (by decide)], (h.2.2.1 rfl).1 (by decide)⟩

/-! ### C1 -/

/-- Context with an unparseable filter buffer and a valid collection
selection (one database "db1" with one collection "users"). -/
def ctxC1 : MongoContext :=
  { MongoContext.init with
    query_input := "not json"
    databases := [{ name := "db1", collections := [{ name := "users" }] }]
    selected_db_index := some 0
    selected_coll_index := some 0 }

/-- State with the Query Builder open on the Filter field over ctxC1. -/
def viewerC1 : MongoViewer :=
  { MongoViewer.init with context := ctxC1, popup_state := .queryBuilder .filter }

/-- C1 as stated is false: with the filter text "not json", which fails
parsing (pdNone), Enter closes the Query Builder (the popup does not
stay open), records no validation error at all, and the emitted
RefreshDocuments then spawns a find/count task, with the broken filter
silently dropped. -/
theorem c1_enter_submits_despite_unparseable_filter :
    pdNone (viewerC1.context.query_input) = Option.none ∧
    (viewerC1.handleKeyEvents prettyD0 .enter).1.popup_state = PopupState.none ∧
    (viewerC1.handleKeyEvents prettyD0 .enter).1.context.input_validation_errors = [] ∧
    (viewerC1.handleKeyEvents prettyD0 .enter).2 = some .refreshDocuments ∧
    (((viewerC1.handleKeyEvents prettyD0 .enter).1).update pdNone .refreshDocuments).2.2 =
      some (.findAndCount { db := "db1"
                            coll := "users"
                            filter := Option.none
                            projection := Option.none
                            sort := Option.none
                            limit := 10
                            skip := 0 }) :=
  ⟨rfl, rfl, rfl, rfl, by decide⟩

/-- C1 amended: pressing Enter in the Query Builder always closes the
popup, resets current_page to 0 and emits RefreshDocuments, whether or
not the filter parses; no validation error is recorded, and a filter
text that fails parsing is sent as an absent filter in the spawned
request instead of blocking submission. -/
theorem c1_amended_query_builder_enter_always_submits
    (prettyDoc : MDoc → Option String) (s : MongoViewer) (qf : QueryField)
    (hp : s.popup_state = .queryBuilder qf) :
    s.handleKeyEvents prettyDoc .enter =
      ({ s with
          popup_state := .none
          context := { s.context with pagination :=
            { s.context.pagination with current_page := 0 } } },
       some .refreshDocuments) ∧
    (s.handleKeyEvents prettyDoc .enter).1.context.input_validation_errors =
      s.context.input_validation_errors ∧
    (∀ (parseBson : String → Option BsonDoc) (db coll fs ss ps ls : String) (pg : Nat),
      parseBson fs = Option.none →
      (mkFindRequest parseBson db coll fs ss ps ls pg).filter = Option.none) := by
  have heq : s.handleKeyEvents prettyDoc .enter =
      ({ s with
          popup_state := .none
          context := { s.context with pagination :=
            { s.context.pagination with current_page := 0 } } },
       some .refreshDocuments) := by
    obtain ⟨ctx, p, ap, il, lf, cp, dbp, dcp⟩ := s
    simp only at hp
    subst hp
    rfl
  refine ⟨heq, by rw [heq], ?_⟩
  intro parseBson db coll fs ss ps ls pg hfail
  unfold mkFindRequest
  split <;> simp [hfail]

/-- Witness for the amended C1 at the concrete viewerC1 state. -/
theorem c1_amended_witness :
    viewerC1.handleKeyEvents prettyD0 .enter =
      ({ viewerC1 with
          popup_state := .none
          context := { ctxC1 with pagination :=
            { ctxC1.pagination with current_page := 0 } } },
       some .refreshDocuments) :=
  (c1_amended_query_builder_enter_always_submits prettyD0 viewerC1 .filter rfl).1

/-! ### C2 -/

/-- State sitting on page 3 of some collection, with the Databases pane
active and its tree cursor on the collection row of db1/users. -/
def viewerC2 : MongoViewer :=
  { MongoViewer.init with
    context := { MongoContext.init with
      databases := [{ name := "db1", collections := [{ name := "users" }] }]
      pagination := { current_page := 3, total_count := some 100 } }
    active_pane := .databases
    databasesPane := { expanded_dbs := ["db1"]
                       tree_items := [.database 0, .collection 0 0]
                       selected_tree_index := some 1
                       list_sel := some 1 } }

/-- C2 as stated is false on the Databases-pane half: selecting the
collection sets both indices and emits RefreshDocuments, but
current_page stays at 3 instead of resetting to 0. -/
theorem c2_collection_select_keeps_current_page :
    (viewerC2.handleKeyEvents prettyD0 .enter).1.context.selected_db_index = some 0 ∧
    (viewerC2.handleKeyEvents prettyD0 .enter).1.context.selected_coll_index = some 0 ∧
    (viewerC2.handleKeyEvents prettyD0 .enter).2 = some .refreshDocuments ∧
    (viewerC2.handleKeyEvents prettyD0 .enter).1.context.pagination.current_page = 3 :=
  ⟨rfl, rfl, rfl, rfl⟩

/-- C2 amended: the Query Builder confirm resets current_page to 0 and
emits RefreshDocuments, but the Databases-pane collection-select
transition sets selected_db_index/selected_coll_index and emits
RefreshDocuments with current_page left unchanged. -/
theorem c2_amended_page_reset_only_on_query_confirm
    (prettyDoc : MDoc → Option String) :
    (∀ (s : MongoViewer) (qf : QueryField), s.popup_state = .queryBuilder qf →
      (s.handleKeyEvents prettyDoc .enter).1.context.pagination.current_page = 0 ∧
      (s.handleKeyEvents prettyDoc .enter).2 = some .refreshDocuments) ∧
    (∀ (s : MongoViewer) (i db_idx coll_idx : Nat),
      s.popup_state = .none → s.active_pane = .databases →
      s.databasesPane.selected_tree_index = some i →
      s.databasesPane.tree_items.get? i = some (.collection db_idx coll_idx) →
      (s.handleKeyEvents prettyDoc .enter).1.context.selected_db_index = some db_idx ∧
      (s.handleKeyEvents prettyDoc .enter).1.context.selected_coll_index = some coll_idx ∧
      (s.handleKeyEvents prettyDoc .enter).2 = some .refreshDocuments ∧
      (s.handleKeyEvents prettyDoc .enter).1.context.pagination.current_page =
        s.context.pagination.current_page) := by
  constructor
  · intro s qf hp
    obtain ⟨ctx, p, ap, il, lf, cp, dbp, dcp⟩ := s
    simp only at hp
    subst hp
    exact ⟨rfl, rfl⟩
  · intro s i db_idx coll_idx hp ha hsel hitem
    obtain ⟨ctx, p, ap, il, lf, cp, dbp, dcp⟩ := s
    simp only at hp ha hsel hitem
    subst hp
    subst ha
    obtain ⟨exp, items, sel, lsel⟩ := dbp
    simp only at hsel hitem
    subst hsel
    simp only [List.get?_eq_getElem?] at hitem
    simp [MongoViewer.handleKeyEvents, MongoViewer.handleMainKey, MongoViewer.paneDispatch,
      DatabasesPaneState.handleKey, interceptOpen, hitem]

/-- Witness for the amended C2: the Query Builder half at viewerC1
(current_page reset to 0) and the Databases half at viewerC2
(indices set, RefreshDocuments emitted, page kept at 3). -/
theorem c2_amended_witness :
    ((viewerC1.handleKeyEvents prettyD0 .enter).1.context.pagination.current_page = 0 ∧
     (viewerC1.handleKeyEvents prettyD0 .enter).2 = some .refreshDocuments) ∧
    ((viewerC2.handleKeyEvents prettyD0 .enter).1.context.selected_db_index = some 0 ∧
     (viewerC2.handleKeyEvents prettyD0 .enter).1.context.selected_coll_index = some 0 ∧
     (viewerC2.handleKeyEvents prettyD0 .enter).2 = some .refreshDocuments ∧
     (viewerC2.handleKeyEvents prettyD0 .enter).1.context.pagination.current_page =
       viewerC2.context.pagination.current_page) :=
  ⟨(c2_amended_page_reset_only_on_query_confirm prettyD0).1 viewerC1 .filter rfl,
   (c2_amended_page_reset_only_on_query_confirm prettyD0).2 viewerC2 1 0 0 rfl rfl rfl rfl⟩

/-! ### C7 -/

/-- The popup handler never emits the global Quit action. -/
theorem handlePopupEvents_no_quit (p : PopupState) (ctx : MongoContext) (k : KeyCode) :
    (handlePopupEvents p ctx k).2.2 ≠ some .quit := by
  unfold handlePopupEvents
  rcases p <;> rcases k <;> dsimp only
  all_goals repeat' split
  all_goals simp

/-- With any popup active, handle_key_events is exactly the popup branch. -/
theorem handleKeyEvents_eq_popupStep (prettyDoc : MDoc → Option String)
    (s : MongoViewer) (k : KeyCode) (h : s.popup_state ≠ .none) :
    s.handleKeyEvents prettyDoc k = s.popupStep k := by
  obtain ⟨ctx, p, ap, il, lf, cp, dbp, dcp⟩ := s
  simp only at h
  cases p
  · exact absurd rfl h
  all_goals rfl

/-- C7: while any popup is active, every key event goes to the popup
handler: the active-pane pointer and all pane-local states are untouched,
and no global shortcut fires (in particular Quit is never emitted),
until the popup transitions back to None. -/
theorem c7_popup_consumes_all_keys
    (prettyDoc : MDoc → Option String) (s : MongoViewer) (k : KeyCode)
    (h : s.popup_state ≠ .none) :
    s.handleKeyEvents prettyDoc k = s.popupStep k ∧
    (s.handleKeyEvents prettyDoc k).1.active_pane = s.active_pane ∧
    (s.handleKeyEvents prettyDoc k).1.connectionsPane = s.connectionsPane ∧
    (s.handleKeyEvents prettyDoc k).1.databasesPane = s.databasesPane ∧
    (s.handleKeyEvents prettyDoc k).1.documentsPane = s.documentsPane ∧
    (s.handleKeyEvents prettyDoc k).2 ≠ some .quit := by
  have heq := handleKeyEvents_eq_popupStep prettyDoc s k h
  refine ⟨heq, ?_, ?_, ?_, ?_, ?_⟩ <;> rw [heq]
  · rfl
  · rfl
  · rfl
  · rfl
  · exact handlePopupEvents_no_quit s.popup_state s.context k

/-- Sample state with the Error popup open. -/
def viewerC7 : MongoViewer :=
  { MongoViewer.init with popup_state := .error "boom" }

/-- Witness for C7: with the Error popup open, the global quit key is
swallowed and the pane layer is untouched. -/
theorem c7_witness :
    (viewerC7.handleKeyEvents prettyD0 (.char 'q')).2 ≠ some .quit ∧
    (viewerC7.handleKeyEvents prettyD0 (.char 'q')).1.active_pane = viewerC7.active_pane := by
  have h := c7_popup_consumes_all_keys prettyD0 viewerC7 (.char 'q') (by decide)
  exact ⟨h.2.2.2.2.2, h.2.1⟩

/-! ### C9 -/

/-- Toggling flips membership of the toggled field. -/
theorem mem_toggleField (vis : List String) (f : String) :
    f ∈ toggleField vis f ↔ f ∉ vis := by
  unfold toggleField
  split
  · rename_i h
    simp only [List.elem_iff] at h
    simp [List.mem_filter, h]
  · rename_i h
    simp only [List.elem_iff] at h
    simp [h]

/-- C9: Enter or Space in the Field Selector toggles the highlighted
field in the popup's visible set, emits UpdateVisibleFields with the new
set while the popup stays a FieldSelector, and processing that action
sets the Documents pane's visible_fields to exactly the new set. -/
theorem c9_field_selector_toggle
    (prettyDoc : MDoc → Option String) (parseBson : String → Option BsonDoc)
    (s : MongoViewer) (i : Nat) (all vis : List String) (f : String) (k : KeyCode)
    (hp : s.popup_state = .fieldSelector (some i) all vis)
    (hf : all.get? i = some f)
    (hk : k = .enter ∨ k = .char ' ') :
    (s.handleKeyEvents prettyDoc k).1.popup_state =
      .fieldSelector (some i) all (toggleField vis f) ∧
    (s.handleKeyEvents prettyDoc k).2 = some (.updateVisibleFields (toggleField vis f)) ∧
    (f ∈ toggleField vis f ↔ f ∉ vis) ∧
    (∀ s2 : MongoViewer,
      (s2.update parseBson
        (.updateVisibleFields (toggleField vis f))).1.documentsPane.visible_fields =
          toggleField vis f) := by
  obtain ⟨ctx, p, ap, il, lf, cp, dbp, dcp⟩ := s
  simp only at hp
  subst hp
  simp only [List.get?_eq_getElem?] at hf
  rcases hk with rfl | rfl <;>
    refine ⟨?_, ?_, mem_toggleField vis f, fun s2 => rfl⟩ <;>
    simp [MongoViewer.handleKeyEvents, MongoViewer.popupStep, handlePopupEvents, hf]

/-- Sample state with the Field Selector open on fields a, b with only
_id visible and the cursor on a. -/
def viewerC9 : MongoViewer :=
  { MongoViewer.init with popup_state := .fieldSelector (some 0) ["a", "b"] ["_id"] }

/-- Witness for C9: toggling "a" keeps the popup open with visible set
extended to _id, a and broadcasts exactly that set. -/
theorem c9_witness :
    (viewerC9.handleKeyEvents prettyD0 .enter).1.popup_state =
      .fieldSelector (some 0) ["a", "b"] ["_id", "a"] ∧
    (viewerC9.handleKeyEvents prettyD0 .enter).2 =
      some (.updateVisibleFields ["_id", "a"]) := by
  have h := c9_field_selector_toggle prettyD0 pdNone viewerC9 0 ["a", "b"] ["_id"] "a" .enter
    rfl rfl (Or.inl rfl)
  have ht : toggleField ["_id"] "a" = ["_id", "a"] := by decide
  exact ⟨by rw [h.1, ht], by rw [h.2.1, ht]⟩

end MongoTui
